import Mathlib

/-!
Verification of the `t-result` TypeScript library (src/src/main.ts) against its
natural-language specification.

The JavaScript runtime values the library manipulates are shallowly embedded as
the inductive type `JSValue`.  A native `Error` instance is the constructor
`errObj`; its `id` field stands for the object's allocation identity, so that
"identity-preserved" claims (returning the very same instance rather than an
equal-looking copy) are expressible as structural equality on the embedding.
Fresh errors allocated by `unknownToError` use id 0; no claim needs to
distinguish two fresh allocations from each other.

Results (`Res`) are kept as a structured two-constructor type mirroring the
`Ok`/`Err` union; `Res.toJS` renders the runtime object shape the constructors
`ok`/`err` actually build (tag fields plus the attached method table), which is
what the structural guard `isResult` inspects.
-/

/-- Embedded JavaScript runtime values. -/
inductive JSValue where
  | null
  | undefined
  | bool (b : Bool)
  | num (n : Int)
  | str (s : String)
  | arr (elems : List JSValue)
  | obj (fields : List (String × JSValue))
  | errObj (id : Nat) (message : String) (cause : Option JSValue)
  | func (id : Nat)

/-- JavaScript `typeof` operator. -/
def JSValue.typeofOp : JSValue → String
  | .null => "object"
  | .undefined => "undefined"
  | .bool _ => "boolean"
  | .num _ => "number"
  | .str _ => "string"
  | .arr _ => "object"
  | .obj _ => "object"
  | .errObj _ _ _ => "object"
  | .func _ => "function"

/-- `value === null`. -/
def JSValue.isNull : JSValue → Bool
  | .null => true
  | _ => false

/-- `value instanceof Error`. -/
def JSValue.isErrorInstance : JSValue → Bool
  | .errObj _ _ _ => true
  | _ => false

/-- First binding of a key in an object's field list (JS object property lookup;
duplicate keys cannot arise from JS object literals, so first-match is exact). -/
def lookupField (fields : List (String × JSValue)) (k : String) : Option JSValue :=
  (fields.find? (fun p => p.1 == k)).map (fun p => p.2)

/-- The JS `in` operator, restricted to own properties (the guard `isResult`
only applies it after a `typeof === 'object' && value !== null` check, and the
only prototype-chain members relevant to the claims are `Error`'s own
`message`/`stack`/`cause`). -/
def JSValue.hasProp : JSValue → String → Bool
  | .obj fs, k => (lookupField fs k).isSome
  | .arr xs, k => k == "length" || (List.range xs.length).any (fun i => toString i == k)
  | .errObj _ _ c, k => k == "message" || k == "stack" || (k == "cause" && c.isSome)
  | _, _ => false

/-- JS property access `value[k]`, `undefined` when absent. -/
def JSValue.getProp : JSValue → String → JSValue
  | .obj fs, k => (lookupField fs k).getD .undefined
  | .arr xs, k =>
      if k == "length" then .num (Int.ofNat xs.length)
      else ((xs.enum.find? (fun p => toString p.1 == k)).map (fun p => p.2)).getD .undefined
  | .errObj _ m c, k =>
      if k == "message" then .str m
      else if k == "cause" then c.getD .undefined
      else .undefined
  | _, _ => .undefined

/-- JS truthiness of a value. -/
def JSValue.truthy : JSValue → Bool
  | .null => false
  | .undefined => false
  | .bool b => b
  | .num n => n != 0
  | .str s => s != ""
  | _ => true

/-- Model of the external `isObject` predicate (`@ls-stack/utils/assertions`;
the spec's `isPlainObject`): a plain mapping-like object — not `null`, not an
array, not a class instance such as a native `Error`. -/
def isObject : JSValue → Bool
  | .obj _ => true
  | _ => false

/-- Model of the external `isFunction` predicate. -/
def isFunctionVal : JSValue → Bool
  | .func _ => true
  | _ => false

/-- Character-by-character JSON string escaping (quotes and backslashes; the
claims use no control characters). -/
def escapeJsonChars : List Char → String
  | [] => ""
  | c :: cs =>
      (if c = '"' then "\\\""
       else if c = '\\' then "\\\\"
       else String.singleton c) ++ escapeJsonChars cs

/-- JSON string escaping: the quoted, escaped form of a string. -/
def escapeJson (s : String) : String :=
  "\"" ++ escapeJsonChars s.data ++ "\""

mutual

/-- Model of the external `safeJsonStringify` (`@ls-stack/utils/safeJson`; the
spec's `safeStringify`): `JSON.stringify` that returns `none` instead of
throwing or producing `undefined`.  Top-level `undefined` and functions
stringify to nothing; inside arrays they become `null`, inside objects the
field is skipped; `Error` instances have no enumerable own properties. -/
def jsonStringify : JSValue → Option String
  | .null => some "null"
  | .undefined => none
  | .bool b => some (if b then "true" else "false")
  | .num n => some (toString n)
  | .str s => some (escapeJson s)
  | .errObj _ _ _ => some "\x7b\x7d"
  | .func _ => none
  | .arr xs => some ("[" ++ String.intercalate "," (jsonArrParts xs) ++ "]")
  | .obj fs => some ("\x7b" ++ String.intercalate "," (jsonObjParts fs) ++ "\x7d")

/-- Array elements of `jsonStringify`; unstringifiable elements print as
`null`. -/
def jsonArrParts : List JSValue → List String
  | [] => []
  | x :: xs => ((jsonStringify x).getD "null") :: jsonArrParts xs

/-- Object fields of `jsonStringify`; unstringifiable fields are skipped. -/
def jsonObjParts : List (String × JSValue) → List String
  | [] => []
  | (k, v) :: fs =>
      match jsonStringify v with
      | some s => (escapeJson k ++ ":" ++ s) :: jsonObjParts fs
      | none => jsonObjParts fs

end

/-- `unknownToError` (src/src/main.ts:418-437).  Arm by arm:
`error instanceof Error` returns the error itself; `typeof error === 'string'`
builds `new Error(error)` with no cause; `isObject(error)` checks
`'message' in error && error.message && typeof error.message === 'string'` —
which holds exactly when the `message` field is a non-empty string, since a
present string is truthy iff it is non-empty and a truthy non-string fails the
`typeof` test — and otherwise falls back to
`safeJsonStringify(error) ?? 'unknown'`; everything else also stringifies.
Both fallback arms attach the original value as `cause`. -/
def unknownToError : JSValue → JSValue
  | .errObj i m c => .errObj i m c
  | .str s => .errObj 0 s none
  | .obj fs =>
      match lookupField fs "message" with
      | some (.str s) =>
          if s = "" then
            .errObj 0 ((jsonStringify (.obj fs)).getD "unknown") (some (.obj fs))
          else .errObj 0 s (some (.obj fs))
      | _ => .errObj 0 ((jsonStringify (.obj fs)).getD "unknown") (some (.obj fs))
  | e => .errObj 0 ((jsonStringify e).getD "unknown") (some e)

/-- The `ResultValidErrors` constraint (src/src/main.ts:19-24):
`Error | Record<string, unknown> | unknown[] | readonly unknown[] | true`. -/
def isValidError : JSValue → Bool
  | .errObj _ _ _ => true
  | .obj _ => true
  | .arr _ => true
  | .bool b => b
  | _ => false

/-- A `Result` value: the union of the `Ok` and `Err` shapes built by the
constructors `ok` (src/src/main.ts:177-197) and `err` (src/src/main.ts:205-233). -/
inductive Res where
  | ok (value : JSValue)
  | err (error : JSValue)

/-- The `ok` tag field: `ok: true` on the Ok shape, `ok: false` on Err. -/
def Res.okField : Res → Bool
  | .ok _ => true
  | .err _ => false

/-- The `error` field: the literal `false` on the Ok shape, the stored payload
on Err (stored directly — the constructor neither copies nor transforms it). -/
def Res.errorField : Res → JSValue
  | .ok _ => .bool false
  | .err e => e

/-- The `value` field: present only on the Ok shape. -/
def Res.valueField : Res → Option JSValue
  | .ok v => some v
  | .err _ => none

/-- `unwrapOrNull`: `okUnwrapOr` (returns `this.value`) on Ok, `() => null` on
Err (src/src/main.ts:103-105, 207). -/
def Res.unwrapOrNull : Res → JSValue
  | .ok v => v
  | .err _ => .null

/-- `unwrapOr`: on Ok it is `okUnwrapOr`, which ignores the argument and
returns `this.value`; on Err it is `(defaultValue) => defaultValue`
(src/src/main.ts:103-105, 208). -/
def Res.unwrapOr (r : Res) (d : JSValue) : JSValue :=
  match r with
  | .ok v => v
  | .err _ => d

/-- `unwrap`: `okUnwrapOr` on Ok; on Err it throws the payload itself when it
is a native `Error` instance and `unknownToError(error)` otherwise
(src/src/main.ts:209-215).  A throw is the `Except.error` branch. -/
def Res.unwrap : Res → Except JSValue JSValue
  | .ok v => .ok v
  | .err e => .error (if e.isErrorInstance then e else unknownToError e)

/-- `mapOk`: `okMap` = `this.ok ? ok(mapFn(this.value)) : this`
(src/src/main.ts:107-112); on Err the method table binds `returnResult`,
which returns `this` (src/src/main.ts:142-144, 216). -/
def Res.mapOk (r : Res) (mapFn : JSValue → JSValue) : Res :=
  match r with
  | .ok v => .ok (mapFn v)
  | .err _ => r

/-- `mapErr`: `returnResult` on Ok; `errMap` = `err(mapFn(this.error))` on Err
(src/src/main.ts:114-122, 183, 217). -/
def Res.mapErr (r : Res) (mapFn : JSValue → JSValue) : Res :=
  match r with
  | .ok _ => r
  | .err e => .err (mapFn e)

/-- `mapOkAndErr` (src/src/main.ts:124-140):
`this.ok ? ok(mapFn(this.value)) : err(mapErrFn(this.error))`. -/
def Res.mapOkAndErr (r : Res) (okFn errFn : JSValue → JSValue) : Res :=
  match r with
  | .ok v => .ok (okFn v)
  | .err e => .err (errFn e)

/-- Modelled from the spec: `mapToValue` appears in the spec's method table
(§3) and in the repository's tests, but no implementation of it is present in
src/src/main.ts.  Per the spec: "returns `okFn(value)` (plain value, not
wrapped)" on Ok and "returns `errFn(error)` (plain value)" on Err. -/
def Res.mapToValue (r : Res) (okFn errFn : JSValue → JSValue) : JSValue :=
  match r with
  | .ok v => okFn v
  | .err e => errFn e

/-- The function-valued fields every constructed Result carries (the `methods`
record spread into the object literal, src/src/main.ts:178-189, 206-223).  The
`func` ids only record that distinct closures sit in the slots. -/
def resultMethodFields : List (String × JSValue) :=
  [("unwrapOrNull", .func 0), ("unwrapOr", .func 1), ("unwrap", .func 2),
   ("mapOk", .func 3), ("mapErr", .func 4), ("mapOkAndErr", .func 5),
   ("ifOk", .func 6), ("ifErr", .func 7), ("onOk", .func 8), ("onErr", .func 9)]

/-- The runtime object a Result is: `{ ok: true, error: false, value, ...methods }`
for Ok (src/src/main.ts:191-196) and `{ ok: false, error, errorResult, ...methods }`
for Err (src/src/main.ts:225-232). -/
def Res.toJS : Res → JSValue
  | .ok v =>
      .obj ([("ok", .bool true), ("error", .bool false), ("value", v)]
        ++ resultMethodFields)
  | .err e =>
      .obj ([("ok", .bool false), ("error", e), ("errorResult", .func 10)]
        ++ resultMethodFields)

/-- `hasMethod` (src/src/main.ts:549-551):
`method in value && typeof value[method] === 'function'`. -/
def hasMethod (value : JSValue) (method : String) : Bool :=
  value.hasProp method && (value.getProp method).typeofOp == "function"

/-- `isResult` (src/src/main.ts:529-547), conjunct for conjunct. -/
def isResult (value : JSValue) : Bool :=
  value.typeofOp == "object" &&
  !value.isNull &&
  value.hasProp "ok" &&
  (value.getProp "ok").typeofOp == "boolean" &&
  value.hasProp "error" &&
  hasMethod value "unwrapOrNull" &&
  hasMethod value "unwrapOr" &&
  hasMethod value "unwrap" &&
  hasMethod value "mapOk" &&
  hasMethod value "mapErr" &&
  hasMethod value "mapOkAndErr" &&
  hasMethod value "onOk" &&
  hasMethod value "onErr"

/-- A deferred value (promise) observed at settlement: either fulfilled with a
value or rejected with a reason. -/
inductive Settled (α : Type) where
  | fulfilled (val : α)
  | rejected (reason : JSValue)

/-- What invoking the wrapped function does: return a plain (non-promise)
value, return a promise (observed at its settlement), or throw. -/
inductive SyncOutcome where
  | ret (v : JSValue)
  | retPromise (p : Settled JSValue)
  | thrown (e : JSValue)

/-- `resultify`'s runtime argument: a callable (classified by `isFunction`) or
a raw promise (src/src/main.ts:354-360). -/
inductive ResultifyArg where
  | fn (outcome : SyncOutcome)
  | promise (p : Settled JSValue)

/-- `resultify`'s return: a synchronous Result or a deferred Result. -/
inductive ResultifyOut where
  | sync (r : Res)
  | async (p : Settled Res)

/-- The error branch `errorNormalizer ? errorNormalizer(error) : unknownToError(error)`
shared by every catch site in `resultify` (src/src/main.ts:363-368, 378-384,
389-393). -/
def normalizeWith (errorNormalizer : Option (JSValue → JSValue)) (e : JSValue) : JSValue :=
  match errorNormalizer with
  | some f => f e
  | none => unknownToError e

/-- The `.then((value) => ok(value)).catch((error) => err(...))` chain applied
to a promise: the produced promise always fulfils, with `ok` of the value or
`err` of the (optionally normalized) rejection reason. -/
def settleToResult (p : Settled JSValue) (errorNormalizer : Option (JSValue → JSValue)) :
    Settled Res :=
  match p with
  | .fulfilled v => .fulfilled (.ok v)
  | .rejected e => .fulfilled (.err (normalizeWith errorNormalizer e))

/-- `resultify` (src/src/main.ts:354-395): a non-function argument goes through
the then/catch chain; a function is invoked inside try/catch, its return goes
through the same chain when it `isPromise`, is wrapped in `ok` otherwise, and a
synchronous throw is caught and wrapped in `err`. -/
def resultify (arg : ResultifyArg) (errorNormalizer : Option (JSValue → JSValue)) :
    ResultifyOut :=
  match arg with
  | .promise p => .async (settleToResult p errorNormalizer)
  | .fn outcome =>
      match outcome with
      | .thrown e => .sync (.err (normalizeWith errorNormalizer e))
      | .retPromise p => .async (settleToResult p errorNormalizer)
      | .ret v => .sync (.ok v)

/-- Modelled from the spec: `safeFn` is described by the spec (§2, §4.4) and
exercised by the repository's README, but no implementation of it is present in
src/src/main.ts.  Per the spec, it "returns a new function with the same
parameter list as `fn`" and "internally it is `resultify` specialized to always
treat the argument as a zero-shot function call performed now, with the
original arguments forwarded", detecting sync-vs-deferred results per call. -/
def safeFn (fn : List JSValue → SyncOutcome)
    (errorNormalizer : Option (JSValue → JSValue)) :
    List JSValue → ResultifyOut :=
  fun args => resultify (.fn (fn args)) errorNormalizer

/-- `asyncUnwrap` (src/src/main.ts:250-264): await the promise (a rejected
input makes the `await` throw, so the produced promise rejects with the same
reason); an Ok fulfils with the value; an Err throws the payload itself when it
is a native `Error` instance and `unknownToError` of it otherwise. -/
def asyncUnwrap (result : Settled Res) : Settled JSValue :=
  match result with
  | .rejected r => .rejected r
  | .fulfilled u =>
      match u with
      | .ok v => .fulfilled v
      | .err e => .rejected (if e.isErrorInstance then e else unknownToError e)

/-- `unknownToResultError` (src/src/main.ts:240-242):
`err(unknownToError(error))`. -/
def unknownToResultError (error : JSValue) : Res :=
  .err (unknownToError error)

/-- `errId` (src/src/main.ts:308-310): `err({ id })`. -/
def errId (id : String) : Res :=
  .err (.obj [("id", .str id)])

/-- `asyncMap(...).ok` (src/src/main.ts:283-288): awaits the promise (so a
rejected input rejects the produced promise), then
`result.ok ? ok(mapFn(result.value)) : err(result.error)`. -/
def asyncMapOk (resultPromise : Settled Res) (mapFn : JSValue → JSValue) : Settled Res :=
  match resultPromise with
  | .rejected r => .rejected r
  | .fulfilled (.ok v) => .fulfilled (.ok (mapFn v))
  | .fulfilled (.err e) => .fulfilled (.err e)

/-- `asyncMap(...).err` (src/src/main.ts:277-282):
`result.ok ? ok(result.value) : err(mapFn(result.error))`. -/
def asyncMapErr (resultPromise : Settled Res) (mapFn : JSValue → JSValue) : Settled Res :=
  match resultPromise with
  | .rejected r => .rejected r
  | .fulfilled (.ok v) => .fulfilled (.ok v)
  | .fulfilled (.err e) => .fulfilled (.err (mapFn e))

/-- `asyncMap(...).okAndErr` (src/src/main.ts:289-298):
`result.ok ? ok(mapFn(result.value)) : err(mapErrFn(result.error))`. -/
def asyncMapOkAndErr (resultPromise : Settled Res)
    (mapFn mapErrFn : JSValue → JSValue) : Settled Res :=
  match resultPromise with
  | .rejected r => .rejected r
  | .fulfilled (.ok v) => .fulfilled (.ok (mapFn v))
  | .fulfilled (.err e) => .fulfilled (.err (mapErrFn e))

/-- The object `asyncMap` returns (src/src/main.ts:276-299): three mapping
closures over the same eventual Result. -/
structure AsyncMapOps where
  err : (JSValue → JSValue) → Settled Res
  ok : (JSValue → JSValue) → Settled Res
  okAndErr : (JSValue → JSValue) → (JSValue → JSValue) → Settled Res

/-- `asyncMap` (src/src/main.ts:273-300): bundles the three closures, each
awaiting `resultPromise`. -/
def asyncMap (resultPromise : Settled Res) : AsyncMapOps :=
  ⟨fun mapFn => asyncMapErr resultPromise mapFn,
   fun mapFn => asyncMapOk resultPromise mapFn,
   fun mapFn mapErrFn => asyncMapOkAndErr resultPromise mapFn mapErrFn⟩

/-- The runtime shape of `TypedResult` (src/src/main.ts:444-458): the shared
`ok`/`err` constructors plus the `_type` getter, which always throws
(`typeAccess` models evaluating that getter). -/
structure TypedResultObj where
  ok : JSValue → Res
  err : JSValue → Res
  typeAccess : Except JSValue Unit

/-- The `typedResult` singleton (src/src/main.ts:469-475): the shared
constructors; evaluating `_type` throws
`new Error('usage as value is not allowed')`. -/
def typedResult : TypedResultObj :=
  ⟨Res.ok, Res.err, .error (.errObj 0 "usage as value is not allowed" none)⟩

/-- `getOkErr` (src/src/main.ts:482-517): all four overloads erase to the same
runtime behavior, returning the `typedResult` singleton. -/
def getOkErr : TypedResultObj := typedResult

/-- The `Result` namespace object (src/src/main.ts:315-331).  Each member is
the assignment made in the object literal: `ok`, `err`, `asyncUnwrap`,
`asyncMap`, `getOkErr`, `errId` are the very same functions, while the member
*named* `unknownToError` is bound to `unknownToResultError`. -/
def Result.ok (value : JSValue) : Res := Res.ok value

/-- `err` member of the `Result` namespace (src/src/main.ts:325). -/
def Result.err (error : JSValue) : Res := Res.err error

/-- `unknownToError` member of the `Result` namespace (src/src/main.ts:326):
bound to `unknownToResultError`, not to the standalone `unknownToError`. -/
def Result.unknownToError (error : JSValue) : Res := unknownToResultError error

/-- Root-level `asyncUnwrap` under an alias, so the facade member below can
refer to it (inside `Result.asyncUnwrap` the short name would resolve to the
definition itself). -/
def asyncUnwrapImpl : Settled Res → Settled JSValue := asyncUnwrap

/-- Root-level `errId` under an alias, for the same reason. -/
def errIdImpl : String → Res := errId

/-- Root-level `asyncMap` under an alias, for the same reason. -/
def asyncMapImpl : Settled Res → AsyncMapOps := asyncMap

/-- Root-level `getOkErr` under an alias, for the same reason. -/
def getOkErrImpl : TypedResultObj := getOkErr

/-- `asyncUnwrap` member of the `Result` namespace (src/src/main.ts:327). -/
def Result.asyncUnwrap (result : Settled Res) : Settled JSValue := asyncUnwrapImpl result

/-- `asyncMap` member of the `Result` namespace (src/src/main.ts:328). -/
def Result.asyncMap (resultPromise : Settled Res) : AsyncMapOps := asyncMapImpl resultPromise

/-- `getOkErr` member of the `Result` namespace (src/src/main.ts:329). -/
def Result.getOkErr : TypedResultObj := getOkErrImpl

/-- `errId` member of the `Result` namespace (src/src/main.ts:330). -/
def Result.errId (id : String) : Res := errIdImpl id

/-- The method names the claim (and spec §4.6) requires the guard to check:
the shared method set minus `mapToValue`, `ifOk`, `ifErr`, `errorResult`. -/
def requiredResultMethods : List String :=
  ["unwrapOrNull", "unwrapOr", "unwrap", "mapOk", "mapErr", "mapOkAndErr",
   "onOk", "onErr"]

/-- The guard predicate as the claim words it: a non-null object, a boolean
`ok` field, an `error` field present with any value, and a callable member for
each required method name.  Stated independently of `isResult` so that the two
can be compared. -/
def isResultSpec (value : JSValue) : Bool :=
  value.typeofOp == "object" &&
  !value.isNull &&
  value.hasProp "ok" &&
  (value.getProp "ok").typeofOp == "boolean" &&
  value.hasProp "error" &&
  requiredResultMethods.all
    (fun m => value.hasProp m && (value.getProp m).typeofOp == "function")

/-- C1: for every value `v`, `ok(v)` is an Ok result with `ok === true`,
`error === false` and `value === v`, and `unwrapOrNull()`, `unwrap()` and
`unwrapOr(d)` for any default `d` all return `v`. -/
theorem c1_ok_construction (v d : JSValue) :
    (Res.ok v).okField = true ∧
    (Res.ok v).errorField = .bool false ∧
    (Res.ok v).valueField = some v ∧
    (Res.ok v).unwrapOrNull = v ∧
    (Res.ok v).unwrap = .ok v ∧
    (Res.ok v).unwrapOr d = v :=
  ⟨rfl, rfl, rfl, rfl, rfl, rfl⟩

/-- C2: for every error payload `e` satisfying the error constraint, `err(e)`
has `ok === false`, stores `e` itself in `error`, `unwrapOrNull()` returns
`null`, `unwrapOr(d)` returns `d`, and `unwrap()` throws — `e` itself when it
is a native `Error` instance, `unknownToError(e)` otherwise. -/
theorem c2_err_construction (e d : JSValue) (hvalid : isValidError e = true) :
    (Res.err e).okField = false ∧
    (Res.err e).errorField = e ∧
    (Res.err e).unwrapOrNull = .null ∧
    (Res.err e).unwrapOr d = d ∧
    (e.isErrorInstance = true → (Res.err e).unwrap = .error e) ∧
    (e.isErrorInstance = false → (Res.err e).unwrap = .error (unknownToError e)) := by
  refine ⟨rfl, rfl, rfl, rfl, ?_, ?_⟩ <;> intro h <;> simp [Res.unwrap, h]

/-- Witness for C2 at a native-error payload and at a plain-object payload. -/
theorem c2_err_construction_witness :
    isValidError (.errObj 3 "x" none) = true ∧
    (Res.err (.errObj 3 "x" none)).unwrap = .error (.errObj 3 "x" none) ∧
    isValidError (.obj [("id", .str "t")]) = true ∧
    (Res.err (.obj [("id", .str "t")])).unwrap
      = .error (unknownToError (.obj [("id", .str "t")])) := by
  refine ⟨rfl, ?_, rfl, ?_⟩
  · exact (c2_err_construction (.errObj 3 "x" none) .null rfl).2.2.2.2.1 rfl
  · exact (c2_err_construction (.obj [("id", .str "t")]) .null rfl).2.2.2.2.2 rfl

/-- C3: on a synchronous (non-promise-returning) function, `resultify` returns
a Result synchronously: `ok` of the returned value, and on a throw an Err of
`unknownToError(thrown)` — a thrown native `Error` instance preserved by
identity — or of `errorNormalizer(thrown)` when a normalizer was supplied. -/
theorem c3_resultify_sync (v e : JSValue) (f : JSValue → JSValue)
    (i : Nat) (m : String) (c : Option JSValue) :
    resultify (.fn (.ret v)) none = .sync (.ok v) ∧
    resultify (.fn (.ret v)) (some f) = .sync (.ok v) ∧
    resultify (.fn (.thrown e)) none = .sync (.err (unknownToError e)) ∧
    resultify (.fn (.thrown (.errObj i m c))) none = .sync (.err (.errObj i m c)) ∧
    resultify (.fn (.thrown e)) (some f) = .sync (.err (f e)) :=
  ⟨rfl, rfl, rfl, rfl, rfl⟩

/-- C4 as stated is false: an object whose `message` field is the empty string
has a string-valued `message`, yet the code's truthiness guard rejects it and
stringifies the whole object instead. -/
theorem c4_counterexample :
    unknownToError (.obj [("message", .str "")])
      = .errObj 0 "\x7b\"message\":\"\"\x7d" (some (.obj [("message", .str "")])) ∧
    ("\x7b\"message\":\"\"\x7d" : String) ≠ "" :=
  ⟨rfl, by decide⟩

/-- C4 (amended): for a mapping-like object that is not a native error
instance, the produced error's message is the object's `message` field whenever
that field is a *non-empty* string, and otherwise `safeStringify` of the object
(the literal `unknown` when stringification fails); in both sub-cases the
`cause` is the original object. -/
theorem c4_unknownToError_object (fs : List (String × JSValue)) :
    (∀ s : String, lookupField fs "message" = some (.str s) → s ≠ "" →
      unknownToError (.obj fs) = .errObj 0 s (some (.obj fs))) ∧
    ((∀ s : String, lookupField fs "message" = some (.str s) → s = "") →
      unknownToError (.obj fs)
        = .errObj 0 ((jsonStringify (.obj fs)).getD "unknown") (some (.obj fs))) := by
  constructor
  · intro s hs hne
    simp [unknownToError, hs, hne]
  · intro h
    unfold unknownToError
    cases hm : lookupField fs "message" with
    | none => simp [hm]
    | some w =>
      cases w with
      | str s => simp [hm, h s hm]
      | null => simp [hm]
      | undefined => simp [hm]
      | bool b => simp [hm]
      | num n => simp [hm]
      | arr xs => simp [hm]
      | obj gs => simp [hm]
      | errObj i m c => simp [hm]
      | func i => simp [hm]

/-- Witness for C4 (amended): a non-empty `message` is used verbatim with the
object as cause; an object without `message` is stringified. -/
theorem c4_unknownToError_object_witness :
    lookupField [("message", .str "m"), ("x", .num 1)] "message" = some (.str "m") ∧
    unknownToError (.obj [("message", .str "m"), ("x", .num 1)])
      = .errObj 0 "m" (some (.obj [("message", .str "m"), ("x", .num 1)])) ∧
    unknownToError (.obj [("id", .num 1)])
      = .errObj 0 "\x7b\"id\":1\x7d" (some (.obj [("id", .num 1)])) := by
  refine ⟨rfl, ?_, ?_⟩
  · exact (c4_unknownToError_object [("message", .str "m"), ("x", .num 1)]).1 "m" rfl
      (by decide)
  · have h := (c4_unknownToError_object [("id", .num 1)]).2
      (by intro s hs; simp [lookupField] at hs)
    exact h.trans rfl

/-- C5: `mapToValue({ok, err})` returns `okFn(value)` as a bare value on an Ok
and `errFn(error)` as a bare value on an Err. -/
theorem c5_mapToValue (v e : JSValue) (okFn errFn : JSValue → JSValue) :
    (Res.ok v).mapToValue okFn errFn = okFn v ∧
    (Res.err e).mapToValue okFn errFn = errFn e :=
  ⟨rfl, rfl⟩

/-- C6: the function produced by `safeFn(fn, errorNormalizer?)` forwards its
arguments to `fn` and wraps the call: an Ok of the return value on success, an
Err of the (optionally normalizer-transformed) thrown error on throw, and a
deferred Result when `fn`'s return is itself deferred. -/
theorem c6_safeFn (fn : List JSValue → SyncOutcome)
    (errorNormalizer : Option (JSValue → JSValue)) (args : List JSValue) :
    safeFn fn errorNormalizer args =
      match fn args with
      | .ret v => .sync (.ok v)
      | .thrown e => .sync (.err (normalizeWith errorNormalizer e))
      | .retPromise p => .async (settleToResult p errorNormalizer) := by
  cases h : fn args <;> simp [safeFn, resultify, h]

/-- C7: `isResult` agrees everywhere with the claim's structural description
(non-null object, boolean `ok`, an `error` field, callable members for the
eight required names), and decides the claim's concrete examples as stated. -/
theorem c7_isResult (v : JSValue) :
    isResult v = isResultSpec v ∧
    isResult ((Res.ok (.num 1)).toJS) = true ∧
    isResult ((Res.err (.errObj 0 "x" none)).toJS) = true ∧
    isResult (.obj [("ok", .bool true), ("value", .num 1)]) = false ∧
    isResult .null = false ∧
    isResult (.num 1) = false := by
  refine ⟨?_, rfl, rfl, rfl, rfl, rfl⟩
  simp [isResult, isResultSpec, requiredResultMethods, hasMethod, List.all,
    Bool.and_assoc]

/-- C8: `asyncUnwrap` of a promise settling to an Ok resolves to the value;
settling to an Err it rejects with the payload itself when that is a native
`Error` instance and with `unknownToError` of it otherwise. -/
theorem c8_asyncUnwrap (v e : JSValue) (i : Nat) (m : String) (c : Option JSValue)
    (he : e.isErrorInstance = false) :
    asyncUnwrap (.fulfilled (.ok v)) = .fulfilled v ∧
    asyncUnwrap (.fulfilled (.err (.errObj i m c))) = .rejected (.errObj i m c) ∧
    asyncUnwrap (.fulfilled (.err e)) = .rejected (unknownToError e) := by
  refine ⟨rfl, rfl, ?_⟩
  simp [asyncUnwrap, he]

/-- Witness for C8 at a non-error payload. -/
theorem c8_asyncUnwrap_witness :
    JSValue.isErrorInstance (.obj [("a", .num 1)]) = false ∧
    asyncUnwrap (.fulfilled (.err (.obj [("a", .num 1)])))
      = .rejected (unknownToError (.obj [("a", .num 1)])) :=
  ⟨rfl, (c8_asyncUnwrap .null (.obj [("a", .num 1)]) 0 "" none rfl).2.2⟩

/-- C9: `mapOk` with the identity is observably the original Result, composing
two `mapOk`s equals one `mapOk` of the composition, and on an Err branch
`mapOk` returns the same Result unchanged. -/
theorem c9_mapOk_laws (r : Res) (f g : JSValue → JSValue) (e : JSValue) :
    r.mapOk (fun x => x) = r ∧
    (r.mapOk f).mapOk g = r.mapOk (fun x => g (f x)) ∧
    (Res.err e).mapOk f = Res.err e := by
  refine ⟨?_, ?_, rfl⟩ <;> cases r <;> rfl

/-- C10 as stated is false: the namespace member named `unknownToError` is
bound to `unknownToResultError`, so `Result.unknownToError('x')` is an Err
*result* wrapping the normalized error, not a native `Error` object. -/
theorem c10_counterexample :
    Result.unknownToError (.str "x") = Res.err (.errObj 0 "x" none) ∧
    JSValue.isErrorInstance ((Result.unknownToError (.str "x")).toJS) = false ∧
    JSValue.isErrorInstance (unknownToError (.str "x")) = true :=
  ⟨rfl, rfl, rfl⟩

/-- C10 (amended): the namespace facade re-exports `ok`, `err`, `asyncUnwrap`,
`asyncMap`, `getOkErr` and `errId` unchanged with no independent logic (its
`getOkErr` is the `typedResult` singleton carrying the shared constructors),
but binds the member named `unknownToError` to `unknownToResultError`, which
returns `err(unknownToError(v))` — an Err result wrapping the normalized
native error, not the bare `Error`. -/
theorem c10_namespace_facade (v : JSValue) (r : Settled Res) (i : String) :
    Result.ok v = Res.ok v ∧
    Result.err v = Res.err v ∧
    Result.asyncUnwrap r = asyncUnwrap r ∧
    Result.asyncMap r = asyncMap r ∧
    Result.getOkErr = getOkErr ∧
    Result.getOkErr = typedResult ∧
    Result.getOkErr.ok v = Res.ok v ∧
    Result.getOkErr.err v = Res.err v ∧
    Result.errId i = errId i ∧
    Result.unknownToError v = unknownToResultError v ∧
    Result.unknownToError v = Res.err (unknownToError v) ∧
    (Result.unknownToError v).okField = false :=
  ⟨rfl, rfl, rfl, rfl, rfl, rfl, rfl, rfl, rfl, rfl, rfl, rfl⟩
